import Mathlib

/-!
Shallow embedding of the tail-lookup repository (FAA aircraft registration
lookup) for specification checking.

Sources embedded:
* src/app/database.py   — decode tables `AIRCRAFT_TYPES` / `ENGINE_TYPES` and
  `Database.lookup` (the SQL left join plus row-to-response conversion).
* src/app/main.py       — `normalize_tail` and `bulk_lookup`.
* src/scripts/update_faa_data.py — `parse_csv` and `build_database`.

Modelling conventions:
* Strings are Lean `String`s; Python `str.upper` is modelled per character
  over ASCII (the identifiers involved are ASCII), `str.strip` trims the
  whitespace characters space, tab, CR, LF.
* Python `int(s)` is modelled as `pyInt : String -> Option Int`, `none`
  standing for a raised `ValueError` (underscore digit grouping, an exotic
  corner of the Python grammar never exercised by this data, is not
  modelled).
* SQLite rows are records of `String` fields; the only `NULL` that can
  arise in the queried view comes from the failed side of the LEFT JOIN and
  is modelled with `Option`.
* A Python function that can raise is embedded with `Except Unit`.
-/

deriving instance DecidableEq for Except

namespace TailLookup

/-- Per-character model of Python `str.upper`, exact on ASCII: a basic
latin lower-case letter moves down 32 code points, anything else is
unchanged.  Full Python uppercasing additionally applies the Unicode
one-to-one mappings and the one-to-many expansions (for example U+00DF
to "SS" and U+01CC to "NJ"), which a character-to-character function
cannot express; theorems whose truth depends on uppercasing therefore
restrict their inputs to ASCII, where this model and the program
agree. -/
def pyUpperChar (c : Char) : Char :=
  if 97 ≤ c.toNat ∧ c.toNat ≤ 122 then Char.ofNat (c.toNat - 32) else c

/-- Python `str.upper` (ASCII model). -/
def pyUpper (s : String) : String :=
  String.mk (s.data.map pyUpperChar)

/-- The whitespace set Python `str.strip()` removes (`str.isspace`):
the ASCII characters TAB through CR (9-13), FS through US and the space
(28-32), next line (0x85), no-break space (0xa0), Ogham space mark
(0x1680), the Unicode space separators 0x2000-0x200a, the line and
paragraph separators (0x2028, 0x2029), narrow no-break space (0x202f),
medium mathematical space (0x205f) and ideographic space (0x3000). -/
def isWs (c : Char) : Bool :=
  decide ((9 ≤ c.toNat ∧ c.toNat ≤ 13) ∨ (28 ≤ c.toNat ∧ c.toNat ≤ 32) ∨
    c.toNat = 133 ∨ c.toNat = 160 ∨ c.toNat = 5760 ∨
    (8192 ≤ c.toNat ∧ c.toNat ≤ 8202) ∨ c.toNat = 8232 ∨ c.toNat = 8233 ∨
    c.toNat = 8239 ∨ c.toNat = 8287 ∨ c.toNat = 12288)

/-- Python `str.strip()`: drop leading and trailing whitespace. -/
def pyStrip (s : String) : String :=
  String.mk (((s.data.dropWhile isWs).reverse.dropWhile isWs).reverse)

/-- Value of a nonempty all-digit character list. -/
def digitsVal (l : List Char) : Nat :=
  l.foldl (fun n c => 10 * n + (c.toNat - 48)) 0

/-- Digit-sequence parse: `some` only for a nonempty list of ASCII digits. -/
def digitsToNat (l : List Char) : Option Nat :=
  if l ≠ [] ∧ l.all Char.isDigit then some (digitsVal l) else none

/-- Python `int(s)` on a string: strip whitespace, optional sign, digits.
`none` models a raised `ValueError`. -/
def pyInt (s : String) : Option Int :=
  match (pyStrip s).data with
  | '+' :: rest => (digitsToNat rest).map Int.ofNat
  | '-' :: rest => (digitsToNat rest).map (fun n => -(n : Int))
  | l => (digitsToNat l).map Int.ofNat

/-- The conversion `int(v) if v else None` from `Database.lookup`
(src/app/database.py lines 74-76): an empty string is falsy and yields
`None`; otherwise `int` runs and may raise (`Except.error ()`). -/
def coerceNum (v : String) : Except Unit (Option Int) :=
  if v = "" then .ok none
  else
    match pyInt v with
    | some n => .ok (some n)
    | none => .error ()

/-- Python `x or default` for a nullable string `x` (rows 69-70 of
database.py): `None` and `""` are falsy. -/
def pyOrD (o : Option String) (d : String) : String :=
  match o with
  | some s => if s = "" then d else s
  | none => d

/-- Python `x or None` for a nullable string `x` (row 71 of database.py). -/
def pyOrNone (o : Option String) : Option String :=
  match o with
  | some s => if s = "" then none else some s
  | none => none

/-- The `AIRCRAFT_TYPES` dict of src/app/database.py lines 6-18. -/
def AIRCRAFT_TYPES : List (String × String) :=
  [("1", "Glider"),
   ("2", "Balloon"),
   ("3", "Blimp/Dirigible"),
   ("4", "Fixed Wing Single-Engine"),
   ("5", "Fixed Wing Multi-Engine"),
   ("6", "Rotorcraft"),
   ("7", "Weight-Shift-Control"),
   ("8", "Powered Parachute"),
   ("9", "Gyroplane"),
   ("H", "Hybrid Lift"),
   ("O", "Other")]

/-- The `ENGINE_TYPES` dict of src/app/database.py lines 20-33. -/
def ENGINE_TYPES : List (String × String) :=
  [("0", "None"),
   ("1", "Reciprocating"),
   ("2", "Turbo-Prop"),
   ("3", "Turbo-Shaft"),
   ("4", "Turbo-Jet"),
   ("5", "Turbo-Fan"),
   ("6", "Ramjet"),
   ("7", "2-Cycle"),
   ("8", "4-Cycle"),
   ("9", "Unknown"),
   ("10", "Electric"),
   ("11", "Rotary")]

/-- `AIRCRAFT_TYPES.get(code, "Unknown")` (database.py line 72). -/
def aircraftTypeLabel (code : String) : String :=
  (AIRCRAFT_TYPES.lookup code).getD "Unknown"

/-- `ENGINE_TYPES.get(code, "Unknown")` (database.py line 73). -/
def engineTypeLabel (code : String) : String :=
  (ENGINE_TYPES.lookup code).getD "Unknown"

/-- A row of the `master` table (schema in update_faa_data.py lines
119-129); every column is TEXT and the builder never inserts NULL. -/
structure MasterRow where
  n_number : String
  mfr_mdl_code : String
  type_aircraft : String
  type_engine : String
  no_eng : String
  no_seats : String
  year_mfr : String
deriving Repr, DecidableEq

/-- A row of the `acftref` table (schema in update_faa_data.py lines
131-140). -/
structure AcftrefRow where
  code : String
  mfr : String
  model : String
  series : String
  no_eng : String
  no_seats : String
deriving Repr, DecidableEq

/-- The relational store the lookup service reads. -/
structure Database where
  master : List MasterRow
  acftref : List AcftrefRow
  metadata : List (String × String)
deriving Repr, DecidableEq

/-- The `AircraftResponse` model (src/app/models.py lines 6-16). -/
structure AircraftResponse where
  tail_number : String
  manufacturer : String
  model : String
  series : Option String
  aircraft_type : String
  engine_type : String
  num_engines : Option Int
  num_seats : Option Int
  year_mfr : Option Int
deriving Repr, DecidableEq

/-- The `COALESCE(a.no_eng, m.no_eng)` column of the lookup query
(database.py line 52): when the LEFT JOIN matched, the acftref TEXT value
is non-NULL (even when it is the empty string) and wins; the master value
is used only when no acftref row matched. -/
def sqlNoEng (m : MasterRow) (aref : Option AcftrefRow) : String :=
  match aref with
  | some a => a.no_eng
  | none => m.no_eng

/-- The `COALESCE(a.no_seats, m.no_seats)` column (database.py line 53). -/
def sqlNoSeats (m : MasterRow) (aref : Option AcftrefRow) : String :=
  match aref with
  | some a => a.no_seats
  | none => m.no_seats

/-- Conversion of the joined SQL row into an `AircraftResponse`
(database.py lines 67-77).  `aref` is the LEFT JOIN partner (`none` when
no acftref row matched, making the acftref columns NULL).  Any of the
three `int(...)` coercions can raise, modelled by `Except.error ()`. -/
def rowToResponse (m : MasterRow) (aref : Option AcftrefRow) :
    Except Unit AircraftResponse :=
  match coerceNum (sqlNoEng m aref), coerceNum (sqlNoSeats m aref),
      coerceNum m.year_mfr with
  | .ok ne, .ok ns, .ok ym =>
      .ok { tail_number := "N" ++ m.n_number
            manufacturer := pyOrD (aref.map (fun a => a.mfr)) "Unknown"
            model := pyOrD (aref.map (fun a => a.model)) "Unknown"
            series := pyOrNone (aref.map (fun a => a.series))
            aircraft_type := aircraftTypeLabel m.type_aircraft
            engine_type := engineTypeLabel m.type_engine
            num_engines := ne
            num_seats := ns
            year_mfr := ym }
  | _, _, _ => .error ()

/-- `Database.lookup` (src/app/database.py lines 44-77).  The SQL
`WHERE m.n_number = ?` with `fetchone` returns the first matching master
row (or NULL, giving `ok none` = not found); the LEFT JOIN binds the
first acftref row whose `code` equals the master `mfr_mdl_code`.  A
`ValueError` raised while building the response propagates. -/
def Database.lookup (db : Database) (n_number : String) :
    Except Unit (Option AircraftResponse) :=
  match db.master.find? (fun m => m.n_number == n_number) with
  | none => .ok none
  | some m =>
    match rowToResponse m (db.acftref.find? (fun a => a.code == m.mfr_mdl_code)) with
    | .ok r => .ok (some r)
    | .error e => .error e

/-- The `if t.startswith("N"): t = t[1:]` step of `normalize_tail`. -/
def dropLeadN (l : List Char) : List Char :=
  match l with
  | c :: rest => if c = 'N' then rest else c :: rest
  | [] => []

/-- `normalize_tail` (src/app/main.py lines 44-49): uppercase, strip,
drop one leading `N`, then remove every hyphen and space (the two
`replace` calls each erase a single-character pattern). -/
def normalize_tail (tail : String) : String :=
  String.mk ((dropLeadN (pyStrip (pyUpper tail)).data).filter
    (fun c => c ≠ '-' ∧ c ≠ ' '))

/-- The `BulkResult` model (src/app/models.py lines 48-59): every field
except `tail_number` is optional and defaults to `None`. -/
structure BulkResult where
  tail_number : String
  manufacturer : Option String := none
  model : Option String := none
  series : Option String := none
  aircraft_type : Option String := none
  engine_type : Option String := none
  num_engines : Option Int := none
  num_seats : Option Int := none
  year_mfr : Option Int := none
  error : Option String := none
deriving Repr, DecidableEq

/-- The `BulkResponse` model (src/app/models.py lines 62-66). -/
structure BulkResponse where
  total : Nat
  found : Nat
  results : List BulkResult
deriving Repr, DecidableEq

/-- The success-branch `BulkResult` built by `bulk_lookup`
(src/app/main.py lines 93-103) from an `AircraftResponse`. -/
def successResult (a : AircraftResponse) : BulkResult :=
  { tail_number := a.tail_number
    manufacturer := some a.manufacturer
    model := some a.model
    series := a.series
    aircraft_type := some a.aircraft_type
    engine_type := some a.engine_type
    num_engines := a.num_engines
    num_seats := a.num_seats
    year_mfr := a.year_mfr
    error := none }

/-- One iteration of the `bulk_lookup` loop body (src/app/main.py lines
81-108).  The returned `Bool` is `true` exactly when the loop increments
`found` (the success branch).  A `ValueError` raised inside `db.lookup`
propagates and aborts the whole request. -/
def bulkItem (db : Database) (tail : String) :
    Except Unit (BulkResult × Bool) :=
  if normalize_tail tail = "" then
    .ok ({ tail_number := pyUpper tail, error := some "Invalid tail number" },
         false)
  else
    match db.lookup (normalize_tail tail) with
    | .error e => .error e
    | .ok none =>
        .ok ({ tail_number := "N" ++ normalize_tail tail,
               error := some "Not found" },
             false)
    | .ok (some a) => .ok (successResult a, true)

/-- The `bulk_lookup` loop over all requested tails, accumulating the
result list in input order and the `found` counter. -/
def bulkLoop (db : Database) : List String → Except Unit (List BulkResult × Nat)
  | [] => .ok ([], 0)
  | t :: ts =>
    match bulkItem db t with
    | .error e => .error e
    | .ok (r, b) =>
      match bulkLoop db ts with
      | .error e => .error e
      | .ok (rs, f) => .ok (r :: rs, (if b then 1 else 0) + f)

/-- `bulk_lookup` (src/app/main.py lines 72-114): requests with more than
50 tail numbers are rejected (HTTP 400, modelled `Except.error ()`) before
any lookup runs; otherwise one outcome per input, plus totals. -/
def bulk_lookup (db : Database) (tail_numbers : List String) :
    Except Unit BulkResponse :=
  if tail_numbers.length > 50 then .error ()
  else
    match bulkLoop db tail_numbers with
    | .error e => .error e
    | .ok (rs, f) =>
        .ok { total := tail_numbers.length, found := f, results := rs }

/-- A parsed CSV record: the `dict` produced per data row by `parse_csv`,
as an association list in insertion order. -/
abbrev Record := List (String × String)

/-- Python `row.get(col, "")` on a parsed record. -/
def recGetD (r : Record) (k : String) : String :=
  (r.lookup k).getD ""

/-- Python truthiness of `row.get(col)` on a parsed record: the key is
present with a nonempty value. -/
def recTruthy (r : Record) (k : String) : Bool :=
  recGetD r k ≠ ""

/-- The `col_map` of `parse_csv` (update_faa_data.py lines 89-92): each
expected column found verbatim (case-sensitively) in the header is bound
to its first header index; absent expected columns get no binding. -/
def colMapOf (header expected_cols : List String) : List (String × Nat) :=
  expected_cols.filterMap (fun col =>
    if col ∈ header then some (col, header.indexOf col) else none)

/-- The per-row record built by `parse_csv` (update_faa_data.py lines
96-101): for each mapped column, the stripped field at its index, or the
empty string when the index falls outside the row. -/
def rowRecord (col_map : List (String × Nat)) (row : List String) : Record :=
  col_map.map (fun ci =>
    (ci.1, if ci.2 < row.length then pyStrip (row.getD ci.2 "") else ""))

/-- `parse_csv` (src/scripts/update_faa_data.py lines 79-105), modelled on
the already line-split and comma-split text (the BOM stripping and the csv
reader are the file-format layer; the claims are about the column
mapping).  The header names are stripped before the index lookup. -/
def parse_csv (headerRow : List String) (dataRows : List (List String))
    (expected_cols : List String) : List Record :=
  dataRows.map (rowRecord (colMapOf (headerRow.map pyStrip) expected_cols))

/-- Python `a or b` on two strings (the engine-count fallback in
update_faa_data.py line 175). -/
def pyOrStr (a b : String) : String :=
  if a = "" then b else a

/-- The `acftref` tuple built from a parsed row (update_faa_data.py lines
151-158): series is always stored empty. -/
def refRowOf (r : Record) : AcftrefRow :=
  { code := recGetD r "CODE"
    mfr := recGetD r "MFR"
    model := recGetD r "MODEL"
    series := ""
    no_eng := recGetD r "NO-ENG"
    no_seats := recGetD r "NO-SEATS" }

/-- `acftref_data` (update_faa_data.py lines 150-161): rows with a falsy
`CODE` are skipped. -/
def acftref_data (rows : List Record) : List AcftrefRow :=
  (rows.filter (fun r => recTruthy r "CODE")).map refRowOf

/-- The `master` tuple built from a parsed row (update_faa_data.py lines
170-178), with the `NO-ENG` fallback to the first character of
`ENG MFR MDL`. -/
def masterRowOf (r : Record) : MasterRow :=
  { n_number := recGetD r "N-NUMBER"
    mfr_mdl_code := recGetD r "MFR MDL CODE"
    type_aircraft := recGetD r "TYPE AIRCRAFT"
    type_engine := recGetD r "TYPE ENGINE"
    no_eng := pyOrStr (recGetD r "NO-ENG") ((recGetD r "ENG MFR MDL").take 1)
    no_seats := recGetD r "NO-SEATS"
    year_mfr := recGetD r "YEAR MFR" }

/-- `master_data` (update_faa_data.py lines 169-181): rows with a falsy
`N-NUMBER` are skipped. -/
def master_data (rows : List Record) : List MasterRow :=
  (rows.filter (fun r => recTruthy r "N-NUMBER")).map masterRowOf

/-- `INSERT OR IGNORE` executed row by row into a table with the given
primary key: a row whose key is already present is silently skipped. -/
def insertOrIgnore (key : α → String) (acc : List α) : List α → List α
  | [] => acc
  | r :: rs =>
    if acc.any (fun x => key x == key r) then insertOrIgnore key acc rs
    else insertOrIgnore key (acc ++ [r]) rs

/-- The persisted store as built by `build_database`. -/
structure Store where
  acftref : List AcftrefRow
  master : List MasterRow
  metadata : List (String × String)
  hasIndex : Bool
deriving Repr, DecidableEq

/-- The store right after the three `CREATE TABLE` statements. -/
def emptyStore : Store :=
  { acftref := [], master := [], metadata := [], hasIndex := false }

/-- The complete store produced by a successful `build_database` run
(update_faa_data.py lines 108-201); `now` is the build timestamp. -/
def buildStore (master_rows acftref_rows : List Record) (now : String) :
    Store :=
  { acftref := insertOrIgnore (fun a => a.code) [] (acftref_data acftref_rows)
    master := insertOrIgnore (fun m => m.n_number) [] (master_data master_rows)
    metadata := [("last_updated", now)]
    hasIndex := true }

/-- The succession of destination-path states a concurrent reader can
observe during `build_database`, in program order: the prior contents,
absent right after `os.remove` (line 113), the empty schema once the
`CREATE TABLE` statements have run (DDL executes in autocommit mode, so a
reader sees the empty tables while the data inserts are still pending in
the uncommitted transaction), and the full store after `conn.commit`. -/
def buildObservableStates (prev : Option Store)
    (master_rows acftref_rows : List Record) (now : String) :
    List (Option Store) :=
  [prev, none, some emptyStore, some (buildStore master_rows acftref_rows now)]

/-- Destination contents when an insertion step raises before the final
commit: the old file is already removed and the schema created, while the
uncommitted inserts roll back — the reader is left with the empty-schema
store, not with the prior store. -/
def destAfterInsertFailure : Option Store :=
  some emptyStore

example : normalize_tail "N172SP" = "172SP" := by decide
example : normalize_tail "172sp" = "172SP" := by decide
example : normalize_tail " n 172 sp " = "172SP" := by decide
example : normalize_tail "N" = "" := by decide
example : normalize_tail "NN1" = "N1" := by decide
example : coerceNum "" = .ok none := by decide
example : coerceNum "0" = .ok (some 0) := by decide
example : coerceNum "abc" = .error () := by decide
example : aircraftTypeLabel "4" = "Fixed Wing Single-Engine" := by decide
example : aircraftTypeLabel "" = "Unknown" := by decide

/-- Does this `int(...)` coercion run without raising? -/
def coerceOk (s : String) : Bool :=
  match coerceNum s with
  | .ok _ => true
  | .error _ => false

/-- Every stored numeric TEXT field of the database is empty or numeric,
so that no `int(...)` call in `Database.lookup` can raise. -/
def dbNumericOk (db : Database) : Bool :=
  db.master.all (fun m =>
    coerceOk m.no_eng && coerceOk m.no_seats && coerceOk m.year_mfr) &&
  db.acftref.all (fun a => coerceOk a.no_eng && coerceOk a.no_seats)

/-- Does the string start with the letter `N`? -/
def headIsN (s : String) : Bool :=
  match s.data with
  | c :: _ => c = 'N'
  | [] => false

/-- Does the string start with a whitespace character? -/
def headWs (s : String) : Bool :=
  match s.data with
  | c :: _ => isWs c
  | [] => false

/-- Does the string end with a whitespace character? -/
def lastWs (s : String) : Bool :=
  match s.data.getLast? with
  | some c => isWs c
  | none => false

/-! Concrete rows, stores and databases used by the counterexamples and
the witnesses below. -/

/-- A registration row whose own engine/seat counts are present
(nonempty): `no_eng = "2"`, `no_seats = "2"`. -/
def exm1 : MasterRow :=
  { n_number := "1", mfr_mdl_code := "C", type_aircraft := "4",
    type_engine := "1", no_eng := "2", no_seats := "2", year_mfr := "1999" }

/-- A reference row for code `C` with engine/seat counts `"3"`. -/
def exa1 : AcftrefRow :=
  { code := "C", mfr := "M", model := "Mo", series := "",
    no_eng := "3", no_seats := "3" }

/-- Database where the registration row has a matching reference row. -/
def exdb : Database := { master := [exm1], acftref := [exa1], metadata := [] }

/-- Database where the registration row has no matching reference row. -/
def exdbNoRef : Database :=
  { master := [exm1], acftref := [], metadata := [] }

/-- A registration row whose stored engine count is the non-numeric text
`"abc"` (for example produced by the builder falling back to the first
character of `ENG MFR MDL`). -/
def exmBad : MasterRow :=
  { n_number := "1", mfr_mdl_code := "C", type_aircraft := "4",
    type_engine := "1", no_eng := "abc", no_seats := "2", year_mfr := "1999" }

/-- Database holding the malformed registration row. -/
def exdbBad : Database :=
  { master := [exmBad], acftref := [], metadata := [] }

/-- A nonempty prior store sitting at the destination path before a
rebuild. -/
def exOldStore : Store :=
  { acftref := [exa1], master := [exm1],
    metadata := [("last_updated", "2024-01-01T00:00:00+00:00")],
    hasIndex := true }

/-- The response `exdb.lookup "1"` produces. -/
def exresp : AircraftResponse :=
  { tail_number := "N1", manufacturer := "M", model := "Mo", series := none,
    aircraft_type := "Fixed Wing Single-Engine",
    engine_type := "Reciprocating", num_engines := some 3,
    num_seats := some 3, year_mfr := some 1999 }

/-- Parsed reference rows containing a duplicate code `C` and a row with
an empty code. -/
def c9refs : List Record :=
  [[("CODE", "C"), ("MFR", "1")], [("CODE", "")],
   [("CODE", "C"), ("MFR", "2")]]

/-- Parsed master rows containing a duplicate key `1` and a row with an
empty key. -/
def c9masters : List Record :=
  [[("N-NUMBER", "1")], [("N-NUMBER", "")],
   [("N-NUMBER", "1"), ("NO-ENG", "9")]]

/-- The reference row the builder keeps for code `C` (the first-seen
one). -/
def c9ref1 : AcftrefRow :=
  { code := "C", mfr := "1", model := "", series := "", no_eng := "",
    no_seats := "" }

/-- The response `exdbNoRef.lookup "1"` produces. -/
def exrespNoRef : AircraftResponse :=
  { tail_number := "N1", manufacturer := "Unknown", model := "Unknown",
    series := none, aircraft_type := "Fixed Wing Single-Engine",
    engine_type := "Reciprocating", num_engines := some 2,
    num_seats := some 2, year_mfr := some 1999 }

/-! Helper lemmas. -/

theorem toNat_ofNat_small {n : Nat} (h : n < 55296) : (Char.ofNat n).toNat = n := by
  have hv : n.isValidChar := Or.inl h
  simp [Char.ofNat, hv, Char.ofNatAux, Char.toNat, UInt32.toNat,
    BitVec.toNat_ofNatLt]

theorem pyUpperChar_notLower (c : Char) :
    ¬(97 ≤ (pyUpperChar c).toNat ∧ (pyUpperChar c).toNat ≤ 122) := by
  unfold pyUpperChar
  by_cases h : 97 ≤ c.toNat ∧ c.toNat ≤ 122
  · rw [if_pos h, toNat_ofNat_small (by omega)]
    omega
  · rw [if_neg h]
    exact h

theorem pyUpperChar_idem (c : Char) :
    pyUpperChar (pyUpperChar c) = pyUpperChar c := by
  have h := pyUpperChar_notLower c
  rw [show pyUpperChar (pyUpperChar c) =
      if 97 ≤ (pyUpperChar c).toNat ∧ (pyUpperChar c).toNat ≤ 122 then
        Char.ofNat ((pyUpperChar c).toNat - 32)
      else pyUpperChar c from rfl, if_neg h]

theorem map_eq_self_of {α} {f : α → α} {l : List α} (h : ∀ a ∈ l, f a = a) :
    l.map f = l := by
  induction l with
  | nil => rfl
  | cons a t ih =>
    simp only [List.map_cons]
    rw [h a (by simp), ih (fun b hb => h b (by simp [hb]))]

theorem mem_of_mem_dropWhile {α} {p : α → Bool} {l : List α} {a : α}
    (h : a ∈ l.dropWhile p) : a ∈ l :=
  (List.dropWhile_sublist p).subset h

theorem mem_of_mem_stripData {l : List Char} {c : Char}
    (h : c ∈ ((l.dropWhile isWs).reverse.dropWhile isWs).reverse) : c ∈ l := by
  rw [List.mem_reverse] at h
  have h2 := mem_of_mem_dropWhile h
  rw [List.mem_reverse] at h2
  exact mem_of_mem_dropWhile h2

theorem mem_of_mem_dropLeadN {l : List Char} {c : Char}
    (h : c ∈ dropLeadN l) : c ∈ l := by
  match l with
  | [] => exact h
  | d :: rest =>
    rw [show dropLeadN (d :: rest) = if d = 'N' then rest else d :: rest
      from rfl] at h
    by_cases hd : d = 'N'
    · rw [if_pos hd] at h
      exact List.mem_cons_of_mem d h
    · rwa [if_neg hd] at h

theorem dropWhile_eq_self_of_head {α} {p : α → Bool} {l : List α}
    (h : ∀ a, l.head? = some a → p a = false) : l.dropWhile p = l := by
  cases l with
  | nil => rfl
  | cons a t => simp [List.dropWhile_cons, h a rfl]

theorem string_mk_data (s : String) : String.mk s.data = s := rfl

theorem lookup_eq_none_of {β} (l : List (String × β)) (c : String)
    (h : ∀ p ∈ l, p.1 ≠ c) : l.lookup c = none := by
  induction l with
  | nil => rfl
  | cons kb t ih =>
    obtain ⟨k, b⟩ := kb
    have hk : (c == k) = false := by
      have := h (k, b) (by simp)
      simp only [ne_eq] at this
      exact beq_eq_false_iff_ne.mpr (fun e => this e.symm)
    simp only [List.lookup, hk]
    exact ih (fun p hp => h p (by simp [hp]))

theorem coerceOk_iff {s : String} : coerceOk s = true ↔ ∃ v, coerceNum s = .ok v := by
  unfold coerceOk
  cases h : coerceNum s with
  | ok v => simp [h]
  | error e => simp [h]

theorem rowToResponse_ok {m : MasterRow} {aref : Option AcftrefRow}
    {r : AircraftResponse} (h : rowToResponse m aref = .ok r) :
    coerceNum (sqlNoEng m aref) = .ok r.num_engines ∧
    coerceNum (sqlNoSeats m aref) = .ok r.num_seats ∧
    coerceNum m.year_mfr = .ok r.year_mfr ∧
    r.tail_number = "N" ++ m.n_number ∧
    r.manufacturer = pyOrD (aref.map (fun a => a.mfr)) "Unknown" ∧
    r.model = pyOrD (aref.map (fun a => a.model)) "Unknown" ∧
    r.series = pyOrNone (aref.map (fun a => a.series)) ∧
    r.aircraft_type = aircraftTypeLabel m.type_aircraft ∧
    r.engine_type = engineTypeLabel m.type_engine := by
  unfold rowToResponse at h
  cases h1 : coerceNum (sqlNoEng m aref) with
  | error e => rw [h1] at h; cases h
  | ok ne =>
    cases h2 : coerceNum (sqlNoSeats m aref) with
    | error e => rw [h1, h2] at h; cases h
    | ok ns =>
      cases h3 : coerceNum m.year_mfr with
      | error e => rw [h1, h2, h3] at h; cases h
      | ok ym =>
        rw [h1, h2, h3] at h
        cases h
        exact ⟨rfl, rfl, rfl, rfl, rfl, rfl, rfl, rfl, rfl⟩

theorem rowToResponse_ok_of (m : MasterRow) (aref : Option AcftrefRow)
    (he : coerceOk (sqlNoEng m aref) = true)
    (hs : coerceOk (sqlNoSeats m aref) = true)
    (hy : coerceOk m.year_mfr = true) :
    ∃ r, rowToResponse m aref = .ok r := by
  obtain ⟨ne, h1⟩ := coerceOk_iff.mp he
  obtain ⟨ns, h2⟩ := coerceOk_iff.mp hs
  obtain ⟨ym, h3⟩ := coerceOk_iff.mp hy
  cases hr : rowToResponse m aref with
  | ok r => exact ⟨r, rfl⟩
  | error e =>
    exfalso
    unfold rowToResponse at hr
    rw [h1, h2, h3] at hr
    cases hr

theorem lookup_eq_of_find {db : Database} {key : String} {m : MasterRow}
    (hm : db.master.find? (fun x => x.n_number == key) = some m) :
    db.lookup key =
      match rowToResponse m
          (db.acftref.find? (fun a => a.code == m.mfr_mdl_code)) with
      | .ok r => .ok (some r)
      | .error e => .error e := by
  unfold Database.lookup
  rw [hm]

theorem lookup_eq_of_find_none {db : Database} {key : String}
    (hm : db.master.find? (fun x => x.n_number == key) = none) :
    db.lookup key = .ok none := by
  unfold Database.lookup
  rw [hm]

theorem lookup_ok_some {db : Database} {key : String} {r : AircraftResponse}
    (h : db.lookup key = .ok (some r)) :
    ∃ m, db.master.find? (fun x => x.n_number == key) = some m ∧
      rowToResponse m (db.acftref.find? (fun a => a.code == m.mfr_mdl_code)) =
        .ok r := by
  cases hm : db.master.find? (fun x => x.n_number == key) with
  | none => rw [lookup_eq_of_find_none hm] at h; simp at h
  | some m =>
    rw [lookup_eq_of_find hm] at h
    cases hr : rowToResponse m
        (db.acftref.find? (fun a => a.code == m.mfr_mdl_code)) with
    | error e => rw [hr] at h; simp at h
    | ok r2 =>
      rw [hr] at h
      simp only [Except.ok.injEq, Option.some.injEq] at h
      subst h
      exact ⟨m, rfl, hr⟩

theorem dbNumericOk_master {db : Database} (h : dbNumericOk db = true)
    {m : MasterRow} (hm : m ∈ db.master) :
    coerceOk m.no_eng = true ∧ coerceOk m.no_seats = true ∧
      coerceOk m.year_mfr = true := by
  unfold dbNumericOk at h
  rw [Bool.and_eq_true, List.all_eq_true, List.all_eq_true] at h
  have := h.1 m hm
  simp only [Bool.and_eq_true] at this
  exact ⟨this.1.1, this.1.2, this.2⟩

theorem dbNumericOk_acftref {db : Database} (h : dbNumericOk db = true)
    {a : AcftrefRow} (ha : a ∈ db.acftref) :
    coerceOk a.no_eng = true ∧ coerceOk a.no_seats = true := by
  unfold dbNumericOk at h
  rw [Bool.and_eq_true, List.all_eq_true, List.all_eq_true] at h
  have := h.2 a ha
  simp only [Bool.and_eq_true] at this
  exact this

theorem lookup_no_error {db : Database} (h : dbNumericOk db = true)
    (key : String) : ∃ o, db.lookup key = .ok o := by
  cases hm : db.master.find? (fun x => x.n_number == key) with
  | none => exact ⟨none, lookup_eq_of_find_none hm⟩
  | some m =>
    have hmem : m ∈ db.master := List.mem_of_find?_eq_some hm
    obtain ⟨he, hs, hy⟩ := dbNumericOk_master h hmem
    have harefOk : coerceOk (sqlNoEng m
        (db.acftref.find? (fun a => a.code == m.mfr_mdl_code))) = true ∧
        coerceOk (sqlNoSeats m
        (db.acftref.find? (fun a => a.code == m.mfr_mdl_code))) = true := by
      cases haf : db.acftref.find? (fun a => a.code == m.mfr_mdl_code) with
      | none => exact ⟨he, hs⟩
      | some a =>
        have hamem : a ∈ db.acftref := List.mem_of_find?_eq_some haf
        exact dbNumericOk_acftref h hamem
    obtain ⟨r, hr⟩ := rowToResponse_ok_of m _ harefOk.1 harefOk.2 hy
    rw [lookup_eq_of_find hm, hr]
    exact ⟨some r, rfl⟩

theorem bulkItem_invalid {db : Database} {t : String}
    (h : normalize_tail t = "") :
    bulkItem db t =
      .ok ({ tail_number := pyUpper t, error := some "Invalid tail number" },
           false) := by
  unfold bulkItem
  rw [if_pos h]

theorem bulkItem_notfound {db : Database} {t : String}
    (h : normalize_tail t ≠ "")
    (hl : db.lookup (normalize_tail t) = .ok none) :
    bulkItem db t =
      .ok ({ tail_number := "N" ++ normalize_tail t,
             error := some "Not found" },
           false) := by
  unfold bulkItem
  rw [if_neg h, hl]

theorem bulkItem_success {db : Database} {t : String} {a : AircraftResponse}
    (h : normalize_tail t ≠ "")
    (hl : db.lookup (normalize_tail t) = .ok (some a)) :
    bulkItem db t = .ok (successResult a, true) := by
  unfold bulkItem
  rw [if_neg h, hl]

theorem bulkItem_ok {db : Database} (hdb : dbNumericOk db = true)
    (t : String) :
    ∃ r b, bulkItem db t = .ok (r, b) ∧ b = (r.error == none) := by
  by_cases hn : normalize_tail t = ""
  · exact ⟨_, _, bulkItem_invalid hn, rfl⟩
  · obtain ⟨o, ho⟩ := lookup_no_error hdb (normalize_tail t)
    cases o with
    | none => exact ⟨_, _, bulkItem_notfound hn ho, rfl⟩
    | some a => exact ⟨_, _, bulkItem_success hn ho, rfl⟩

theorem bulkLoop_spec {db : Database} (hdb : dbNumericOk db = true) :
    ∀ ts : List String, ∃ rs : List BulkResult,
      bulkLoop db ts = .ok (rs, rs.countP (fun r => r.error == none)) ∧
      rs.length = ts.length ∧
      ∀ i (hi : i < ts.length) (hr : i < rs.length),
        bulkItem db (ts.get ⟨i, hi⟩) =
          .ok (rs.get ⟨i, hr⟩, (rs.get ⟨i, hr⟩).error == none) := by
  intro ts
  induction ts with
  | nil =>
    refine ⟨[], rfl, rfl, ?_⟩
    intro i hi
    exact absurd hi (Nat.not_lt_zero i)
  | cons t ts ih =>
    obtain ⟨r, b, hbi, hb⟩ := bulkItem_ok hdb t
    obtain ⟨rs, hloop, hlen, hidx⟩ := ih
    refine ⟨r :: rs, ?_, by simp [hlen], ?_⟩
    · unfold bulkLoop
      rw [hbi, hloop]
      simp only [List.countP_cons, hb]
      rw [Nat.add_comm]
    · intro i hi hr
      cases i with
      | zero =>
        simpa using hb ▸ hbi
      | succ j =>
        simp only [List.get_cons_succ]
        exact hidx j (by simpa using hi) (by simpa using hr)

theorem bulk_spec {db : Database} (hdb : dbNumericOk db = true)
    {tails : List String} (hlen : tails.length ≤ 50) :
    ∃ rs : List BulkResult,
      bulk_lookup db tails =
        .ok { total := tails.length,
              found := rs.countP (fun r => r.error == none),
              results := rs } ∧
      rs.length = tails.length ∧
      ∀ i (hi : i < tails.length) (hr : i < rs.length),
        bulkItem db (tails.get ⟨i, hi⟩) =
          .ok (rs.get ⟨i, hr⟩, (rs.get ⟨i, hr⟩).error == none) := by
  obtain ⟨rs, hloop, hl, hidx⟩ := bulkLoop_spec hdb tails
  refine ⟨rs, ?_, hl, hidx⟩
  unfold bulk_lookup
  rw [if_neg (by omega : ¬ tails.length > 50), hloop]

theorem bulk_reject {db : Database} {tails : List String}
    (hlen : tails.length > 50) : bulk_lookup db tails = .error () := by
  unfold bulk_lookup
  rw [if_pos hlen]

theorem mem_insertOrIgnore {α} (key : α → String) :
    ∀ (rows acc : List α) (x : α),
      x ∈ insertOrIgnore key acc rows → x ∈ acc ∨ x ∈ rows := by
  intro rows
  induction rows with
  | nil => exact fun acc x h => Or.inl h
  | cons r rs ih =>
    intro acc x h
    unfold insertOrIgnore at h
    by_cases hmem : acc.any (fun y => key y == key r) = true
    · rw [if_pos hmem] at h
      rcases ih acc x h with h1 | h1
      · exact Or.inl h1
      · exact Or.inr (List.mem_cons_of_mem r h1)
    · rw [if_neg hmem] at h
      rcases ih (acc ++ [r]) x h with h1 | h1
      · rw [List.mem_append] at h1
        rcases h1 with h2 | h2
        · exact Or.inl h2
        · simp only [List.mem_singleton] at h2
          exact Or.inr (h2 ▸ List.mem_cons_self r rs)
      · exact Or.inr (List.mem_cons_of_mem r h1)

theorem insertOrIgnore_filter {α} (key : α → String) (k : String) :
    ∀ (rows acc : List α),
      (insertOrIgnore key acc rows).filter (fun x => key x == k) =
        acc.filter (fun x => key x == k) ++
          (if acc.any (fun x => key x == k) then []
           else ((rows.find? (fun x => key x == k)).toList)) := by
  intro rows
  induction rows with
  | nil =>
    intro acc
    simp [insertOrIgnore]
  | cons r rs ih =>
    intro acc
    unfold insertOrIgnore
    by_cases hmem : acc.any (fun y => key y == key r) = true
    · rw [if_pos hmem, ih acc]
      by_cases hk : (key r == k) = true
      · have hkk : key r = k := eq_of_beq hk
        have hany : acc.any (fun x => key x == k) = true := by
          rw [← hkk]; exact hmem
        rw [if_pos hany, if_pos hany]
      · by_cases hany : acc.any (fun x => key x == k) = true
        · rw [if_pos hany, if_pos hany]
        · rw [if_neg hany, if_neg hany,
            List.find?_cons_of_neg _ (by simpa using hk)]
    · rw [if_neg hmem, ih (acc ++ [r])]
      rw [List.filter_append, List.any_append]
      by_cases hk : (key r == k) = true
      · have hkk : key r = k := eq_of_beq hk
        have hany : acc.any (fun x => key x == k) = false := by
          rw [← hkk]
          simpa using hmem
        have hfr : List.filter (fun x => key x == k) [r] = [r] := by
          simp [List.filter_cons, hk]
        have har : ([r].any fun x => key x == k) = true := by
          simp [List.any_cons, hk]
        have hfind : List.find? (fun x => key x == k) (r :: rs) = some r :=
          List.find?_cons_of_pos _ hk
        rw [hfr, har, hfind, hany]
        simp [List.append_assoc]
      · have hk' : (key r == k) = false := by simpa using hk
        have hfr : List.filter (fun x => key x == k) [r] = [] := by
          simp [List.filter_cons, hk']
        have har : ([r].any fun x => key x == k) = false := by
          simp [List.any_cons, hk']
        have hfind : List.find? (fun x => key x == k) (r :: rs) =
            List.find? (fun x => key x == k) rs :=
          List.find?_cons_of_neg _ (by simp [hk'])
        rw [hfr, har, hfind]
        simp

theorem rowRecord_lookup_none (header row : List String) (c : String)
    (hc : c ∉ header) :
    ∀ expected_cols : List String,
      (rowRecord (colMapOf header expected_cols) row).lookup c = none := by
  intro expected_cols
  induction expected_cols with
  | nil => rfl
  | cons col rest ih =>
    unfold colMapOf rowRecord at ih ⊢
    rw [List.filterMap_cons]
    by_cases hcol : col ∈ header
    · rw [if_pos hcol]
      simp only [List.map_cons]
      have hcc : (c == col) = false := by
        refine beq_eq_false_iff_ne.mpr ?_
        intro e
        exact hc (e ▸ hcol)
      simp only [List.lookup, hcc]
      exact ih
    · rw [if_neg hcol]
      exact ih

theorem rowRecord_lookup (header row : List String) (c : String) :
    ∀ expected_cols : List String, c ∈ expected_cols →
      (rowRecord (colMapOf header expected_cols) row).lookup c =
        if c ∈ header then
          some (if header.indexOf c < row.length then
                  pyStrip (row.getD (header.indexOf c) "")
                else "")
        else none := by
  intro expected_cols
  induction expected_cols with
  | nil => intro hc; cases hc
  | cons col rest ih =>
    intro hc
    unfold colMapOf rowRecord at ih ⊢
    rw [List.filterMap_cons]
    by_cases hcol : col ∈ header
    · rw [if_pos hcol]
      simp only [List.map_cons]
      by_cases hcc : c = col
      · subst hcc
        simp only [List.lookup, beq_self_eq_true, if_pos hcol]
      · have hne : (c == col) = false := beq_eq_false_iff_ne.mpr hcc
        simp only [List.lookup, hne]
        have hrest : c ∈ rest := by
          rcases List.mem_cons.mp hc with h | h
          · exact absurd h hcc
          · exact h
        exact ih hrest
    · rw [if_neg hcol]
      by_cases hcc : c = col
      · subst hcc
        rw [if_neg hcol]
        exact rowRecord_lookup_none header row c hcol rest
      · have hrest : c ∈ rest := by
          rcases List.mem_cons.mp hc with h | h
          · exact absurd h hcc
          · exact h
        exact ih hrest

theorem dropLeadN_of_headIsN_false {s : String} (h : headIsN s = false) :
    dropLeadN s.data = s.data := by
  unfold headIsN at h
  cases hdd : s.data with
  | nil => rfl
  | cons c t =>
    rw [hdd] at h
    simp only [] at h
    rw [show dropLeadN (c :: t) = if c = 'N' then t else c :: t from rfl,
      if_neg (by simpa using h)]

theorem headWs_false_head {s : String} (h : headWs s = false) :
    ∀ a, s.data.head? = some a → isWs a = false := by
  intro a ha
  unfold headWs at h
  cases hdd : s.data with
  | nil => rw [hdd] at ha; cases ha
  | cons c t =>
    rw [hdd] at ha h
    simp only [List.head?_cons, Option.some.injEq] at ha
    subst ha
    exact h

theorem lastWs_false_getLast {s : String} (h : lastWs s = false) :
    ∀ a, s.data.getLast? = some a → isWs a = false := by
  intro a ha
  unfold lastWs at h
  rw [ha] at h
  exact h

/-! Claim theorems. -/

/-- Claim C3, counterexample: the identifier normalizer is not
idempotent.  `normalize_tail "NN172SP"` is `"N172SP"` (one leading `N`
dropped), and a second application drops the surviving `N`, giving
`"172SP"`. -/
theorem C3_counterexample :
    normalize_tail (normalize_tail "NN172SP") ≠
      normalize_tail "NN172SP" := by
  decide

/-- Claim C3, amended: normalization is idempotent on every ASCII input
whose normalized form does not start with the letter `N` and neither
starts nor ends with residual whitespace (interior whitespace other than
the space character can survive one pass and be promoted to an edge,
since only hyphens and spaces are removed from the interior; for example
`"1\x0b-"` normalizes to `"1\x0b"` and then to `"1"`).  Outside ASCII
the one-to-many uppercase expansions can also break idempotence (for
example U+01CC uppercases to "NJ", whose leading `N` only the second
pass drops), so the statement is scoped to ASCII inputs, where the
character model of `upper` agrees with the program. -/
theorem C3_amended (x : String)
    (_hA : x.data.all (fun c => c.toNat < 128) = true)
    (hN : headIsN (normalize_tail x) = false)
    (hH : headWs (normalize_tail x) = false)
    (hL : lastWs (normalize_tail x) = false) :
    normalize_tail (normalize_tail x) = normalize_tail x := by
  set y := normalize_tail x with hy
  have hmem : ∀ c ∈ y.data, pyUpperChar c = c := by
    intro c hc
    rw [hy] at hc
    have h1 : c ∈ dropLeadN (pyStrip (pyUpper x)).data :=
      List.mem_of_mem_filter hc
    have h2 : c ∈ (pyStrip (pyUpper x)).data := mem_of_mem_dropLeadN h1
    have h3 : c ∈ x.data.map pyUpperChar := mem_of_mem_stripData h2
    obtain ⟨d, _, hd⟩ := List.mem_map.mp h3
    rw [← hd, pyUpperChar_idem]
  have hup : pyUpper y = y := by
    unfold pyUpper
    rw [map_eq_self_of hmem]
  have hstrip : pyStrip y = y := by
    have h1 : y.data.dropWhile isWs = y.data :=
      dropWhile_eq_self_of_head (fun a ha => headWs_false_head hH a ha)
    have h2 : y.data.reverse.dropWhile isWs = y.data.reverse :=
      dropWhile_eq_self_of_head (fun a ha =>
        lastWs_false_getLast hL a (by rwa [List.head?_reverse] at ha))
    show String.mk (((y.data.dropWhile isWs).reverse.dropWhile
      isWs).reverse) = y
    rw [h1, h2, List.reverse_reverse]
  have hdrop : dropLeadN y.data = y.data := dropLeadN_of_headIsN_false hN
  have hfilter : y.data.filter (fun c => c ≠ '-' ∧ c ≠ ' ') = y.data := by
    apply List.filter_eq_self.mpr
    intro a ha
    rw [hy] at ha
    have ha2 : a ∈ List.filter (fun c => decide (c ≠ '-' ∧ c ≠ ' '))
        (dropLeadN (pyStrip (pyUpper x)).data) := ha
    exact (List.mem_filter.mp ha2).2
  show String.mk ((dropLeadN (pyStrip (pyUpper y)).data).filter
    (fun c => c ≠ '-' ∧ c ≠ ' ')) = y
  rw [hup, hstrip, hdrop, hfilter]

/-- Claim C3, witness: the amended theorem applied to the ASCII input
`"172sp"`, whose normal form `"172SP"` neither starts with `N` nor
carries edge whitespace. -/
theorem C3_witness :
    ((String.data "172sp").all (fun c => c.toNat < 128) = true ∧
     headIsN (normalize_tail "172sp") = false ∧
     headWs (normalize_tail "172sp") = false ∧
     lastWs (normalize_tail "172sp") = false) ∧
    normalize_tail (normalize_tail "172sp") = normalize_tail "172sp" :=
  ⟨⟨by decide, by decide, by decide, by decide⟩,
   C3_amended "172sp" (by decide) (by decide) (by decide) (by decide)⟩

/-- Claim C1, counterexample: the claim says the registration record's own
engine/seat count wins whenever it is present (nonempty).  In `exdb` the
registration row stores `no_eng = "2"` (present, parsing to 2) and has a
matching reference row with `no_eng = "3"`; the lookup result nevertheless
reports `num_engines = some 3` — the reference value — not `some 2`, and
likewise for seats. -/
theorem C1_counterexample :
    exdb.master = [exm1] ∧ exm1.no_eng = "2" ∧ pyInt "2" = some 2 ∧
    exdb.lookup "1" = .ok (some exresp) ∧ exresp.num_engines = some 3 ∧
    exresp.num_engines ≠ some 2 ∧
    exm1.no_seats = "2" ∧ exresp.num_seats = some 3 := by
  decide

/-- Claim C1, amended: whenever the lookup finds a registration record and
succeeds, the result's engine (resp. seat) count is coerced from the
matching reference record's stored value whenever a matching reference
record exists — even when that stored value is empty, which yields absent
— and from the registration record's own value only when no reference
record matches (`COALESCE(a.no_eng, m.no_eng)` prefers the non-NULL
reference column). -/
theorem C1_amended (db : Database) (key : String) (m : MasterRow)
    (hm : db.master.find? (fun x => x.n_number == key) = some m)
    (r : AircraftResponse) (hr : db.lookup key = .ok (some r)) :
    coerceNum (sqlNoEng m
        (db.acftref.find? (fun a => a.code == m.mfr_mdl_code))) =
      .ok r.num_engines ∧
    coerceNum (sqlNoSeats m
        (db.acftref.find? (fun a => a.code == m.mfr_mdl_code))) =
      .ok r.num_seats := by
  obtain ⟨m2, hm2, hrr⟩ := lookup_ok_some hr
  rw [hm] at hm2
  injection hm2 with h
  subst h
  have hrok := rowToResponse_ok hrr
  exact ⟨hrok.1, hrok.2.1⟩

/-- Claim C1, witness: the amended theorem applied to `exdb`. -/
theorem C1_witness :
    exdb.master.find? (fun x => x.n_number == "1") = some exm1 ∧
    exdb.lookup "1" = .ok (some exresp) ∧
    (coerceNum (sqlNoEng exm1
        (exdb.acftref.find? (fun a => a.code == exm1.mfr_mdl_code))) =
      .ok exresp.num_engines ∧
     coerceNum (sqlNoSeats exm1
        (exdb.acftref.find? (fun a => a.code == exm1.mfr_mdl_code))) =
      .ok exresp.num_seats) :=
  ⟨by decide, by decide,
   C1_amended exdb "1" exm1 (by decide) exresp (by decide)⟩

/-- Claim C2, counterexample: the claim says a non-numeric stored value
such as `"abc"` yields "absent" and never makes the record conversion
fail.  In fact `int("abc")` raises: the coercion of `"abc"` is an error,
not `ok none`, and a lookup touching such a row fails as a whole. -/
theorem C2_counterexample :
    coerceNum "abc" ≠ .ok none ∧ coerceNum "abc" = .error () ∧
    exdbBad.lookup "1" = .error () := by
  decide

/-- Claim C2, amended: the coercion of an empty stored value yields
absent and `"0"` yields the present integer 0 (distinct from absent), but
the coercion is not total: any nonempty value that `int(...)` cannot
parse (such as `"abc"`) raises and makes the overall record conversion
fail. -/
theorem C2_amended :
    coerceNum "" = .ok none ∧ coerceNum "0" = .ok (some 0) ∧
    coerceNum "abc" = .error () ∧ exdbBad.lookup "1" = .error () ∧
    (∀ s : String, s ≠ "" → pyInt s = none → coerceNum s = .error ()) := by
  refine ⟨by decide, by decide, by decide, by decide, ?_⟩
  intro s hs hp
  unfold coerceNum
  rw [if_neg hs, hp]

/-- Claim C2, witness: the amended theorem's general clause applied to a
concrete malformed value. -/
theorem C2_witness :
    ("x7" ≠ "" ∧ pyInt "x7" = none ∧ coerceNum "x7" = .error ()) ∧
    coerceNum "" = .ok none :=
  ⟨⟨by decide, by decide, C2_amended.2.2.2.2 "x7" (by decide) (by decide)⟩,
   C2_amended.1⟩

/-- Claim C4, counterexample: the claim says manufacturer, model and
series are each defaulted to the explicit "Unknown" sentinel when absent.
For a registration record with no matching reference record the lookup
does return a populated result with manufacturer and model "Unknown", but
`series` is `row["series"] or None` — it defaults to absent (`none`), not
to the "Unknown" sentinel. -/
theorem C4_counterexample :
    exdbNoRef.acftref = [] ∧
    exdbNoRef.lookup "1" = .ok (some exrespNoRef) ∧
    exrespNoRef.manufacturer = "Unknown" ∧ exrespNoRef.model = "Unknown" ∧
    exrespNoRef.series = none ∧ exrespNoRef.series ≠ some "Unknown" := by
  decide

/-- Claim C4, amended: for every registration record with no matching
reference record whose numeric text fields all coerce without raising,
the lookup returns a populated result (never a failure or not-found) with
manufacturer = "Unknown", model = "Unknown", and series absent (`none`)
rather than the "Unknown" sentinel. -/
theorem C4_amended (db : Database) (key : String) (m : MasterRow)
    (hm : db.master.find? (fun x => x.n_number == key) = some m)
    (ha : db.acftref.find? (fun a => a.code == m.mfr_mdl_code) = none)
    (he : coerceOk m.no_eng = true) (hs : coerceOk m.no_seats = true)
    (hy : coerceOk m.year_mfr = true) :
    ∃ r, db.lookup key = .ok (some r) ∧ r.manufacturer = "Unknown" ∧
      r.model = "Unknown" ∧ r.series = none := by
  obtain ⟨r, hr⟩ := rowToResponse_ok_of m none he hs hy
  refine ⟨r, ?_, ?_, ?_, ?_⟩
  · rw [lookup_eq_of_find hm, ha, hr]
  · exact (rowToResponse_ok hr).2.2.2.2.1
  · exact (rowToResponse_ok hr).2.2.2.2.2.1
  · exact (rowToResponse_ok hr).2.2.2.2.2.2.1

/-- Claim C4, witness: the amended theorem applied to `exdbNoRef`. -/
theorem C4_witness :
    (exdbNoRef.master.find? (fun x => x.n_number == "1") = some exm1 ∧
     exdbNoRef.acftref.find?
       (fun a => a.code == exm1.mfr_mdl_code) = none ∧
     coerceOk exm1.no_eng = true) ∧
    (∃ r, exdbNoRef.lookup "1" = .ok (some r) ∧ r.manufacturer = "Unknown" ∧
      r.model = "Unknown" ∧ r.series = none) :=
  ⟨⟨by decide, by decide, by decide⟩,
   C4_amended exdbNoRef "1" exm1 (by decide) (by decide) (by decide)
     (by decide) (by decide)⟩

/-- Claim C8: every code in the fixed aircraft-type table (codes 1-9, H,
O) and engine-type table (codes 0-11) decodes to its documented label,
and every other code — the empty string included — decodes to "Unknown"
without failing. -/
theorem C8_decode_tables :
    (∀ p ∈ AIRCRAFT_TYPES, aircraftTypeLabel p.1 = p.2) ∧
    (∀ p ∈ ENGINE_TYPES, engineTypeLabel p.1 = p.2) ∧
    (∀ c, c ∉ AIRCRAFT_TYPES.map Prod.fst →
      aircraftTypeLabel c = "Unknown") ∧
    (∀ c, c ∉ ENGINE_TYPES.map Prod.fst → engineTypeLabel c = "Unknown") := by
  refine ⟨by decide, by decide, ?_, ?_⟩
  · intro c hc
    unfold aircraftTypeLabel
    rw [lookup_eq_none_of _ c
      (fun p hp e => hc (e ▸ List.mem_map_of_mem Prod.fst hp))]
    rfl
  · intro c hc
    unfold engineTypeLabel
    rw [lookup_eq_none_of _ c
      (fun p hp e => hc (e ▸ List.mem_map_of_mem Prod.fst hp))]
    rfl

/-- Claim C8, witness: the theorem applied to sample codes from each
table, to the empty code, and to an unrecognized code. -/
theorem C8_witness :
    (("4", "Fixed Wing Single-Engine") ∈ AIRCRAFT_TYPES ∧
      aircraftTypeLabel "4" = "Fixed Wing Single-Engine") ∧
    (("10", "Electric") ∈ ENGINE_TYPES ∧
      engineTypeLabel "10" = "Electric") ∧
    ("" ∉ AIRCRAFT_TYPES.map Prod.fst ∧ aircraftTypeLabel "" = "Unknown") ∧
    ("Z" ∉ ENGINE_TYPES.map Prod.fst ∧ engineTypeLabel "Z" = "Unknown") :=
  ⟨⟨by decide,
    C8_decode_tables.1 ("4", "Fixed Wing Single-Engine") (by decide)⟩,
   ⟨by decide, C8_decode_tables.2.1 ("10", "Electric") (by decide)⟩,
   ⟨by decide, C8_decode_tables.2.2.1 "" (by decide)⟩,
   ⟨by decide, C8_decode_tables.2.2.2 "Z" (by decide)⟩⟩

/-- Claim C5, counterexample: the claim says a reader can never observe a
half-built destination because the old store is replaced only after a
successful full build.  In fact `build_database` begins with `os.remove`:
right after it the destination is absent — neither the old store nor the
completed new one — and a failing insertion leaves the empty-schema
store, not the old store. -/
theorem C5_counterexample :
    ¬(∀ s ∈ buildObservableStates (some exOldStore) [] [] "t",
        s = some exOldStore ∨ s = some (buildStore [] [] "t")) ∧
    destAfterInsertFailure ≠ some exOldStore := by
  constructor
  · intro h
    have h2 := h none (by simp [buildObservableStates])
    simp at h2
  · decide

/-- Claim C5, amended: the build is not atomic for a reader of the
destination path.  `build_database` deletes any existing store first and
rebuilds in place, so for every nonempty prior store there is an
observable mid-build state that is neither the prior store nor the
completed store (the destination is absent right after the removal), and
a failure at an insertion step leaves the destination holding the
empty-schema store rather than the prior store. -/
theorem C5_amended (prev : Store) (hprev : prev ≠ emptyStore)
    (master_rows acftref_rows : List Record) (now : String) :
    (∃ s ∈ buildObservableStates (some prev) master_rows acftref_rows now,
        s ≠ some prev ∧
        s ≠ some (buildStore master_rows acftref_rows now)) ∧
    destAfterInsertFailure ≠ some prev := by
  constructor
  · exact ⟨none, by simp [buildObservableStates], by simp, by simp⟩
  · unfold destAfterInsertFailure
    intro h
    injection h with h2
    exact hprev h2.symm

/-- Claim C5, witness: the amended theorem applied to a concrete nonempty
prior store. -/
theorem C5_witness :
    exOldStore ≠ emptyStore ∧
    ((∃ s ∈ buildObservableStates (some exOldStore) [] [] "t",
        s ≠ some exOldStore ∧ s ≠ some (buildStore [] [] "t")) ∧
     destAfterInsertFailure ≠ some exOldStore) :=
  ⟨by decide, C5_amended exOldStore (by decide) [] [] "t"⟩

/-- Claim C9: the store builder skips every reference row whose code is
falsy (empty) and every registration row whose tail-number key is falsy,
and the INSERT OR IGNORE gives first-seen-wins semantics: for every key,
the rows of the built table with that key are exactly the first source
row carrying it (so a duplicated key leaves exactly one row, the
first-seen one). -/
theorem C9_build_dedup (master_rows acftref_rows : List Record)
    (now : String) :
    (∀ a ∈ (buildStore master_rows acftref_rows now).acftref,
      a.code ≠ "") ∧
    (∀ m ∈ (buildStore master_rows acftref_rows now).master,
      m.n_number ≠ "") ∧
    (∀ k, (buildStore master_rows acftref_rows now).acftref.filter
        (fun a => a.code == k) =
      ((acftref_data acftref_rows).find? (fun a => a.code == k)).toList) ∧
    (∀ k, (buildStore master_rows acftref_rows now).master.filter
        (fun m => m.n_number == k) =
      ((master_data master_rows).find?
        (fun m => m.n_number == k)).toList) := by
  refine ⟨?_, ?_, ?_, ?_⟩
  · intro a ha
    have ha2 : a ∈ insertOrIgnore (fun a => a.code) []
        (acftref_data acftref_rows) := ha
    rcases mem_insertOrIgnore _ _ _ _ ha2 with h | h
    · exact absurd h (List.not_mem_nil a)
    · unfold acftref_data at h
      obtain ⟨r, hr, hra⟩ := List.mem_map.mp h
      have ht : recTruthy r "CODE" = true := (List.mem_filter.mp hr).2
      rw [← hra]
      simpa [recTruthy, refRowOf] using ht
  · intro m hm
    have hm2 : m ∈ insertOrIgnore (fun m => m.n_number) []
        (master_data master_rows) := hm
    rcases mem_insertOrIgnore _ _ _ _ hm2 with h | h
    · exact absurd h (List.not_mem_nil m)
    · unfold master_data at h
      obtain ⟨r, hr, hrm⟩ := List.mem_map.mp h
      have ht : recTruthy r "N-NUMBER" = true := (List.mem_filter.mp hr).2
      rw [← hrm]
      simpa [recTruthy, masterRowOf] using ht
  · intro k
    have h := insertOrIgnore_filter (fun a => a.code) k
      (acftref_data acftref_rows) []
    simpa using h
  · intro k
    have h := insertOrIgnore_filter (fun m => m.n_number) k
      (master_data master_rows) []
    simpa using h

/-- Claim C9, witness: the theorem applied to source rows with an empty
and a duplicated key; the kept row for code `C` is the first-seen one. -/
theorem C9_witness :
    (c9ref1 ∈ (buildStore c9masters c9refs "t").acftref ∧
      c9ref1.code ≠ "") ∧
    (buildStore c9masters c9refs "t").acftref.filter
        (fun a => a.code == "C") =
      ((acftref_data c9refs).find? (fun a => a.code == "C")).toList ∧
    (buildStore c9masters c9refs "t").master.filter
        (fun m => m.n_number == "1") =
      ((master_data c9masters).find? (fun m => m.n_number == "1")).toList :=
  ⟨⟨by decide, (C9_build_dedup c9masters c9refs "t").1 c9ref1 (by decide)⟩,
   (C9_build_dedup c9masters c9refs "t").2.2.1 "C",
   (C9_build_dedup c9masters c9refs "t").2.2.2 "1"⟩

/-- Claim C7: for every data row the parser yields one record; a
requested column present verbatim (case-sensitively) in the stripped
header maps to the stripped field at that header index, a requested
column whose header index falls outside the row maps to the empty
string, and a requested column absent from the header reads as empty for
every row (its key is simply unbound, and `row.get(col, "")` reads
empty), never aborting the parse. -/
theorem C7_parse_columns (headerRow : List String)
    (dataRows : List (List String)) (expected_cols : List String) :
    (parse_csv headerRow dataRows expected_cols).length =
      dataRows.length ∧
    ∀ i (hi : i < dataRows.length)
      (ho : i < (parse_csv headerRow dataRows expected_cols).length),
      ∀ c ∈ expected_cols,
        recGetD ((parse_csv headerRow dataRows expected_cols).get ⟨i, ho⟩)
            c =
          if c ∈ headerRow.map pyStrip then
            (if (headerRow.map pyStrip).indexOf c <
                (dataRows.get ⟨i, hi⟩).length then
              pyStrip ((dataRows.get ⟨i, hi⟩).getD
                ((headerRow.map pyStrip).indexOf c) "")
            else "")
          else "" := by
  constructor
  · exact List.length_map dataRows _
  · intro i hi ho c hc
    have hget : (parse_csv headerRow dataRows expected_cols).get ⟨i, ho⟩ =
        rowRecord (colMapOf (headerRow.map pyStrip) expected_cols)
          (dataRows.get ⟨i, hi⟩) := by
      simp [parse_csv, List.get_eq_getElem, List.getElem_map]
    rw [hget]
    unfold recGetD
    rw [rowRecord_lookup (headerRow.map pyStrip) (dataRows.get ⟨i, hi⟩) c
      expected_cols hc]
    by_cases hch : c ∈ headerRow.map pyStrip
    · rw [if_pos hch, if_pos hch]
      rfl
    · rw [if_neg hch, if_neg hch]
      rfl

/-- Claim C7, witness: the theorem applied to a header whose second
column is `B` (after stripping), with a requested column `Z` absent from
the header and a short second row. -/
theorem C7_witness :
    recGetD ((parse_csv ["A", " B "] [["x ", "y", "z"], ["u"]]
        ["B", "Z"]).get ⟨0, by decide⟩) "B" = "y" ∧
    recGetD ((parse_csv ["A", " B "] [["x ", "y", "z"], ["u"]]
        ["B", "Z"]).get ⟨1, by decide⟩) "Z" = "" :=
  ⟨((C7_parse_columns ["A", " B "] [["x ", "y", "z"], ["u"]]
      ["B", "Z"]).2 0 (by decide) (by decide) "B" (by decide)).trans
    (by decide),
   ((C7_parse_columns ["A", " B "] [["x ", "y", "z"], ["u"]]
      ["B", "Z"]).2 1 (by decide) (by decide) "Z" (by decide)).trans
    (by decide)⟩

/-- Claim C6, counterexample: the claim promises one outcome per input,
each item decided independently of its siblings, for every request of at
most 50 identifiers.  Against `exdbBad` (whose stored engine count
`"abc"` makes `int(...)` raise) the two-element request `["N9", "N1"]`
returns no outcome list at all: the sibling `"N9"` has a well-defined
not-found outcome on its own, but the `ValueError` raised while looking
up `"N1"` aborts the whole request. -/
theorem C6_counterexample :
    (["N9", "N1"] : List String).length ≤ 50 ∧
    normalize_tail "N9" ≠ "" ∧
    exdbBad.lookup (normalize_tail "N9") = .ok none ∧
    bulk_lookup exdbBad ["N9", "N1"] = .error () := by
  decide

/-- Claim C6, amended: for a database whose stored numeric text never
makes `int(...)` raise, a bulk request of more than 50 identifiers is
rejected before any lookup work, and a request of at most 50 identifiers
yields exactly one outcome per input in input order — the
invalid-identifier error when the input normalizes to empty, the
not-found error when the single lookup misses, the populated
`successResult` when it hits — each item determined by that input alone,
with `found` equal to the number of populated (error-free) results and
`total` the number of inputs.  (Without that proviso a single malformed
stored numeric field lets one item's `ValueError` abort the whole
request, as the counterexample shows.) -/
theorem C6_bulk (db : Database) (hdb : dbNumericOk db = true) :
    (∀ tails : List String, tails.length > 50 →
      bulk_lookup db tails = .error ()) ∧
    (∀ tails : List String, tails.length ≤ 50 →
      ∃ resp : BulkResponse, bulk_lookup db tails = .ok resp ∧
        resp.total = tails.length ∧
        resp.results.length = tails.length ∧
        resp.found = resp.results.countP (fun r => r.error == none) ∧
        ∀ i (hi : i < tails.length) (hr : i < resp.results.length),
          (normalize_tail (tails.get ⟨i, hi⟩) = "" →
            resp.results.get ⟨i, hr⟩ =
              { tail_number := pyUpper (tails.get ⟨i, hi⟩),
                error := some "Invalid tail number" }) ∧
          (normalize_tail (tails.get ⟨i, hi⟩) ≠ "" →
            db.lookup (normalize_tail (tails.get ⟨i, hi⟩)) = .ok none →
            resp.results.get ⟨i, hr⟩ =
              { tail_number := "N" ++ normalize_tail (tails.get ⟨i, hi⟩),
                error := some "Not found" }) ∧
          (normalize_tail (tails.get ⟨i, hi⟩) ≠ "" →
            ∀ a, db.lookup (normalize_tail (tails.get ⟨i, hi⟩)) =
                .ok (some a) →
              resp.results.get ⟨i, hr⟩ = successResult a)) := by
  constructor
  · exact fun tails h => bulk_reject h
  · intro tails hlen
    obtain ⟨rs, hb, hl, hidx⟩ := bulk_spec hdb hlen
    refine ⟨_, hb, rfl, hl, rfl, ?_⟩
    intro i hi hr
    have hitem := hidx i hi hr
    refine ⟨?_, ?_, ?_⟩
    · intro hn
      rw [bulkItem_invalid hn] at hitem
      simp only [Except.ok.injEq, Prod.mk.injEq] at hitem
      exact hitem.1.symm
    · intro hn hl2
      rw [bulkItem_notfound hn hl2] at hitem
      simp only [Except.ok.injEq, Prod.mk.injEq] at hitem
      exact hitem.1.symm
    · intro hn a hla
      rw [bulkItem_success hn hla] at hitem
      simp only [Except.ok.injEq, Prod.mk.injEq] at hitem
      exact hitem.1.symm

/-- Claim C6, witness: the theorem applied to `exdb` and the request
`["N1", "-", "N9"]` (one hit, one invalid, one miss), plus the wholesale
rejection of a 51-identifier request. -/
theorem C6_witness :
    (∃ resp : BulkResponse,
      bulk_lookup exdb ["N1", "-", "N9"] = .ok resp ∧
      resp.total = 3 ∧ resp.results.length = 3 ∧ resp.found = 1) ∧
    bulk_lookup exdb (List.replicate 51 "X") = .error () := by
  constructor
  · obtain ⟨resp, hb, -, -, -, -⟩ :=
      (C6_bulk exdb (by decide)).2 ["N1", "-", "N9"] (by decide)
    have hval : bulk_lookup exdb ["N1", "-", "N9"] = .ok
        { total := 3, found := 1,
          results := [successResult exresp,
            { tail_number := "-", error := some "Invalid tail number" },
            { tail_number := "N9", error := some "Not found" }] } := by
      decide
    have hre := hval.symm.trans hb
    simp only [Except.ok.injEq] at hre
    refine ⟨resp, hb, ?_, ?_, ?_⟩
    · rw [← hre]
    · rw [← hre]
      rfl
    · rw [← hre]
  · exact (C6_bulk exdb (by decide)).1 (List.replicate 51 "X") (by decide)

/-- Claim C10: in a bulk response the echoed `tail_number` depends on the
item's outcome — an invalid-identifier item echoes the raw input
uppercased (hyphens and interior spaces preserved, since only `upper`
runs on it), a not-found item echoes `"N"` prepended to the normalized
key, and a successful item echoes the tail number of the lookup
result. -/
theorem C10_bulk_echo (db : Database) (hdb : dbNumericOk db = true)
    (tails : List String) (hlen : tails.length ≤ 50) :
    ∃ resp : BulkResponse, bulk_lookup db tails = .ok resp ∧
      ∀ i (hi : i < tails.length) (hr : i < resp.results.length),
        (normalize_tail (tails.get ⟨i, hi⟩) = "" →
          (resp.results.get ⟨i, hr⟩).tail_number =
            pyUpper (tails.get ⟨i, hi⟩)) ∧
        (normalize_tail (tails.get ⟨i, hi⟩) ≠ "" →
          db.lookup (normalize_tail (tails.get ⟨i, hi⟩)) = .ok none →
          (resp.results.get ⟨i, hr⟩).tail_number =
            "N" ++ normalize_tail (tails.get ⟨i, hi⟩)) ∧
        (normalize_tail (tails.get ⟨i, hi⟩) ≠ "" →
          ∀ a, db.lookup (normalize_tail (tails.get ⟨i, hi⟩)) =
              .ok (some a) →
            (resp.results.get ⟨i, hr⟩).tail_number = a.tail_number) := by
  obtain ⟨rs, hb, hl, hidx⟩ := bulk_spec hdb hlen
  refine ⟨_, hb, ?_⟩
  intro i hi hr
  have hitem := hidx i hi hr
  refine ⟨?_, ?_, ?_⟩
  · intro hn
    rw [bulkItem_invalid hn] at hitem
    simp only [Except.ok.injEq, Prod.mk.injEq] at hitem
    rw [← hitem.1]
  · intro hn hl2
    rw [bulkItem_notfound hn hl2] at hitem
    simp only [Except.ok.injEq, Prod.mk.injEq] at hitem
    rw [← hitem.1]
  · intro hn a hla
    rw [bulkItem_success hn hla] at hitem
    simp only [Except.ok.injEq, Prod.mk.injEq] at hitem
    rw [← hitem.1]
    rfl

/-- Claim C10, witness: across the request `["N1", "-", "N9"]` against
`exdb`, the echoed tail numbers are the result's tail number for the
hit, the uppercased raw input for the invalid item, and `N` plus the
normalized key for the miss. -/
theorem C10_witness :
    ∃ resp : BulkResponse,
      bulk_lookup exdb ["N1", "-", "N9"] = .ok resp ∧
      resp.results.map (fun r => r.tail_number) = ["N1", "-", "N9"] := by
  obtain ⟨resp, hb, -⟩ :=
    C10_bulk_echo exdb (by decide) ["N1", "-", "N9"] (by decide)
  have hval : bulk_lookup exdb ["N1", "-", "N9"] = .ok
      { total := 3, found := 1,
        results := [successResult exresp,
          { tail_number := "-", error := some "Invalid tail number" },
          { tail_number := "N9", error := some "Not found" }] } := by
    decide
  have hre := hval.symm.trans hb
  simp only [Except.ok.injEq] at hre
  refine ⟨resp, hb, ?_⟩
  rw [← hre]
  decide

end TailLookup
